import Mathlib

/-!
Verification of the voxelify pipeline (src/src/lib.rs, src/src/error.rs).

Embedding conventions:
* f32 values are modelled as exact rationals (ℚ).  Every f32 operation the
  theorems exercise is exact on the values involved: positions are small
  integers, the per-face offsets add 1.0, min and max are order operations,
  and the sentinels f32::MAX and f32::MIN are exactly representable
  rationals.  Color conversion divides an 8-bit channel by 255.0; its
  rounding plays no role in any claim (colors are carried, never compared
  numerically).
* u32 and usize values are Nat; a u32::try_from succeeds exactly when the
  value is at most 4294967295.  Subtraction x - 1 is guarded by x ≠ 0 at
  every use site, matching the source.
* The raw-byte reinterpretation in to_padded_byte_vector is modelled at
  the bit level: each f32 field is a 32-bit pattern (a Nat below 2^32)
  serialized as four little-endian bytes, which is what repr(C) on a
  struct of nine f32 fields produces on a little-endian target.
* serde_json serialization of the glTF root is an external crate; its
  outcome is passed to create_glb as an Except-valued argument (the byte
  string on success), which is all create_glb inspects.
-/

namespace Voxelify

/-- An RGB pixel value, as produced by image.get_pixel(x, y).to_rgb();
channels are 8-bit. -/
structure Rgb where
  r : Nat
  g : Nat
  b : Nat
deriving DecidableEq, Repr

/-- The literal image::Rgb([0, 0, 0]). -/
def rgbBlack : Rgb := ⟨0, 0, 0⟩

/-- A decoded image: dimensions plus the pixel lookup
image.get_pixel(x, y).to_rgb(). -/
structure Image where
  width : Nat
  height : Nat
  pixel : Nat → Nat → Rgb

/-- A 3-component f32 vector, modelled over ℚ. -/
structure Vec3 where
  x : ℚ
  y : ℚ
  z : ℚ
deriving DecidableEq, Repr

/-- src/src/lib.rs lines 12-18: position, normal, color, each [f32; 3]. -/
structure Vertex where
  position : Vec3
  normal : Vec3
  color : Vec3
deriving DecidableEq, Repr

/-- src/src/lib.rs lines 148-156. -/
inductive Face where
  | Up
  | Down
  | Left
  | Right
  | Forward
  | Back
deriving DecidableEq, Repr

/-- src/src/lib.rs lines 266-269: pixel == image::Rgb([0, 0, 0]). -/
def is_empty_pixel (pixel : Rgb) : Bool :=
  pixel == rgbBlack

/-- The inline emptiness test of the main scan, src/src/lib.rs line 119:
pixel == image::Rgb([0, 0, 0]). -/
def scan_is_empty (pixel : Rgb) : Bool :=
  pixel == rgbBlack

/-- src/src/lib.rs lines 159-198.  The Rust match on pos.x tries the
literal arm 0 first, then the guard x == image_width - 1, then the
wildcard arm; same for pos.y.  pos mirrors Vector2 with pos.1 = x,
pos.2 = y. -/
def cull_faces (image : Image) (pos : Nat × Nat) : List Face :=
  [Face.Up, Face.Down]
  ++ (if pos.1 = 0 then [Face.Left]
      else if pos.1 = image.width - 1 then [Face.Right]
      else (if is_empty_pixel (image.pixel (pos.1 + 1) pos.2) then [Face.Right] else [])
        ++ (if is_empty_pixel (image.pixel (pos.1 - 1) pos.2) then [Face.Left] else []))
  ++ (if pos.2 = 0 then [Face.Forward]
      else if pos.2 = image.height - 1 then [Face.Back]
      else (if is_empty_pixel (image.pixel pos.1 (pos.2 + 1)) then [Face.Back] else [])
        ++ (if is_empty_pixel (image.pixel pos.1 (pos.2 - 1)) then [Face.Forward] else []))

/-- The color conversion in create_pixel_verticies_face, src/src/lib.rs
lines 278-282: each channel as f32 divided by 255.0. -/
def pixel_color (color : Rgb) : Vec3 :=
  ⟨(color.r : ℚ) / 255, (color.g : ℚ) / 255, (color.b : ℚ) / 255⟩

/-- src/src/lib.rs lines 271-347: the per-face table of six vertices. -/
def create_pixel_verticies_face (pos : ℚ × ℚ) (color : Rgb) (height : ℚ)
    (face : Face) : List Vertex :=
  let color := pixel_color color
  match face with
  | Face.Up =>
      [⟨⟨pos.1, pos.2, height⟩, ⟨0, 0, 1⟩, color⟩,
       ⟨⟨pos.1 + 1, pos.2, height⟩, ⟨0, 0, 1⟩, color⟩,
       ⟨⟨pos.1, pos.2 + 1, height⟩, ⟨0, 0, 1⟩, color⟩,
       ⟨⟨pos.1, pos.2 + 1, height⟩, ⟨0, 0, 1⟩, color⟩,
       ⟨⟨pos.1 + 1, pos.2, height⟩, ⟨0, 0, 1⟩, color⟩,
       ⟨⟨pos.1 + 1, pos.2 + 1, height⟩, ⟨0, 0, 1⟩, color⟩]
  | Face.Down =>
      [⟨⟨pos.1, pos.2, 0⟩, ⟨0, 0, -1⟩, color⟩,
       ⟨⟨pos.1, pos.2 + 1, 0⟩, ⟨0, 0, -1⟩, color⟩,
       ⟨⟨pos.1 + 1, pos.2, 0⟩, ⟨0, 0, -1⟩, color⟩,
       ⟨⟨pos.1, pos.2 + 1, 0⟩, ⟨0, 0, -1⟩, color⟩,
       ⟨⟨pos.1 + 1, pos.2 + 1, 0⟩, ⟨0, 0, -1⟩, color⟩,
       ⟨⟨pos.1 + 1, pos.2, 0⟩, ⟨0, 0, -1⟩, color⟩]
  | Face.Forward =>
      [⟨⟨pos.1, pos.2, 0⟩, ⟨0, -1, 0⟩, color⟩,
       ⟨⟨pos.1 + 1, pos.2, 0⟩, ⟨0, -1, 0⟩, color⟩,
       ⟨⟨pos.1, pos.2, height⟩, ⟨0, -1, 0⟩, color⟩,
       ⟨⟨pos.1, pos.2, height⟩, ⟨0, -1, 0⟩, color⟩,
       ⟨⟨pos.1 + 1, pos.2, 0⟩, ⟨0, -1, 0⟩, color⟩,
       ⟨⟨pos.1 + 1, pos.2, height⟩, ⟨0, -1, 0⟩, color⟩]
  | Face.Back =>
      [⟨⟨pos.1, pos.2 + 1, 0⟩, ⟨0, 1, 0⟩, color⟩,
       ⟨⟨pos.1, pos.2 + 1, height⟩, ⟨0, 1, 0⟩, color⟩,
       ⟨⟨pos.1 + 1, pos.2 + 1, 0⟩, ⟨0, 1, 0⟩, color⟩,
       ⟨⟨pos.1 + 1, pos.2 + 1, 0⟩, ⟨0, 1, 0⟩, color⟩,
       ⟨⟨pos.1, pos.2 + 1, height⟩, ⟨0, 1, 0⟩, color⟩,
       ⟨⟨pos.1 + 1, pos.2 + 1, height⟩, ⟨0, 1, 0⟩, color⟩]
  | Face.Left =>
      [⟨⟨pos.1, pos.2, 0⟩, ⟨-1, 0, 0⟩, color⟩,
       ⟨⟨pos.1, pos.2, height⟩, ⟨-1, 0, 0⟩, color⟩,
       ⟨⟨pos.1, pos.2 + 1, 0⟩, ⟨-1, 0, 0⟩, color⟩,
       ⟨⟨pos.1, pos.2 + 1, 0⟩, ⟨-1, 0, 0⟩, color⟩,
       ⟨⟨pos.1, pos.2, height⟩, ⟨-1, 0, 0⟩, color⟩,
       ⟨⟨pos.1, pos.2 + 1, height⟩, ⟨-1, 0, 0⟩, color⟩]
  | Face.Right =>
      [⟨⟨pos.1 + 1, pos.2, 0⟩, ⟨1, 0, 0⟩, color⟩,
       ⟨⟨pos.1 + 1, pos.2 + 1, 0⟩, ⟨1, 0, 0⟩, color⟩,
       ⟨⟨pos.1 + 1, pos.2, height⟩, ⟨1, 0, 0⟩, color⟩,
       ⟨⟨pos.1 + 1, pos.2 + 1, 0⟩, ⟨1, 0, 0⟩, color⟩,
       ⟨⟨pos.1 + 1, pos.2 + 1, height⟩, ⟨1, 0, 0⟩, color⟩,
       ⟨⟨pos.1 + 1, pos.2, height⟩, ⟨1, 0, 0⟩, color⟩]

/-- src/src/lib.rs lines 112-137: row-major scan (y outer, x inner); a
pixel equal to pure black is skipped, otherwise the visible faces are
generated. -/
def image_to_vertices (image : Image) (height : ℚ) : List Vertex :=
  (List.range image.height).flatMap fun y =>
    (List.range image.width).flatMap fun x =>
      let pixel := image.pixel x y
      if scan_is_empty pixel then []
      else
        (cull_faces image (x, y)).flatMap fun face =>
          create_pixel_verticies_face ((x : ℚ), (y : ℚ)) pixel height face

/-- f32::MAX, exactly representable; the literal equals
(2^24 - 1) * 2^104, see f32MAX_eq below. -/
def f32MAX : ℚ := 340282346638528859811704183484516925440

/-- f32::MIN = -f32::MAX. -/
def f32MIN : ℚ := -f32MAX

/-- src/src/lib.rs lines 549-561: running per-axis min and max over the
positions, starting from the f32::MAX / f32::MIN sentinels. -/
def bounding_coords (points : List Vertex) : Vec3 × Vec3 :=
  points.foldl
    (fun mm point =>
      let p := point.position
      (⟨min mm.1.x p.x, min mm.1.y p.y, min mm.1.z p.z⟩,
       ⟨max mm.2.x p.x, max mm.2.y p.y, max mm.2.z p.z⟩))
    (⟨f32MAX, f32MAX, f32MAX⟩, ⟨f32MIN, f32MIN, f32MIN⟩)

/-- The positions accessor built by create_accessors, src/src/lib.rs lines
201-223: byte offset 0, count = number of vertices, declared min and max
taken verbatim from bounding_coords.  Only the fields the claims inspect
are modelled; the remaining accessor fields are glTF boilerplate. -/
structure PositionsAccessor where
  byte_offset : Nat
  count : Nat
  min : Vec3
  max : Vec3
deriving DecidableEq, Repr

/-- The positions part of create_accessors, src/src/lib.rs lines 206-223. -/
def create_accessors_positions (vertices : List Vertex) : PositionsAccessor :=
  let mm := bounding_coords vertices
  ⟨0, vertices.length, mm.1, mm.2⟩

/-- src/src/lib.rs lines 563-565: (n + 3) with the two low bits cleared,
written arithmetically ((n + 3) masked by the complement of 3 clears
n + 3 down to the next lower multiple of 4). -/
def align_to_multiple_of_four (n : Nat) : Nat :=
  (n + 3) - (n + 3) % 4

/-- A vertex as a bit pattern: each of the nine f32 fields is its 32-bit
representation, a Nat below 2^32.  Field order is declaration order of
the Rust struct: position[0..3], normal[0..3], color[0..3]. -/
structure VertexBits where
  pos0 : Nat
  pos1 : Nat
  pos2 : Nat
  nor0 : Nat
  nor1 : Nat
  nor2 : Nat
  col0 : Nat
  col1 : Nat
  col2 : Nat
deriving DecidableEq, Repr

/-- All nine fields are 32-bit patterns. -/
def VertexBits.wf (v : VertexBits) : Prop :=
  v.pos0 < 4294967296 ∧ v.pos1 < 4294967296 ∧ v.pos2 < 4294967296 ∧
  v.nor0 < 4294967296 ∧ v.nor1 < 4294967296 ∧ v.nor2 < 4294967296 ∧
  v.col0 < 4294967296 ∧ v.col1 < 4294967296 ∧ v.col2 < 4294967296

instance (v : VertexBits) : Decidable v.wf := by
  unfold VertexBits.wf
  infer_instance

/-- The four little-endian bytes of a 32-bit word. -/
def wordBytes (w : Nat) : List Nat :=
  [w % 256, w / 256 % 256, w / 65536 % 256, w / 16777216 % 256]

/-- The 36 bytes of one vertex record: nine little-endian 32-bit words in
declaration order, no interior padding.  This is the layout the unsafe
reinterpretation in to_padded_byte_vector (src/src/lib.rs lines 567-577)
produces for the repr(C) Vertex struct on a little-endian target. -/
def vertexBytes (v : VertexBits) : List Nat :=
  wordBytes v.pos0 ++ wordBytes v.pos1 ++ wordBytes v.pos2 ++
  wordBytes v.nor0 ++ wordBytes v.nor1 ++ wordBytes v.nor2 ++
  wordBytes v.col0 ++ wordBytes v.col1 ++ wordBytes v.col2

/-- src/src/lib.rs lines 567-577: the raw bytes of the vertex array,
then zero bytes appended until the length is a multiple of 4 (the
closed form of the while-loop that pushes one 0 at a time). -/
def to_padded_byte_vector (vec : List VertexBits) : List Nat :=
  let bytes := vec.flatMap vertexBytes
  bytes ++ List.replicate ((4 - bytes.length % 4) % 4) 0

/-- src/src/lib.rs lines 579-582: size_of_val of the vertex slice, i.e.
vertex count times the 36-byte record size. -/
def calculate_buffer_length (vertices : List VertexBits) : Nat :=
  vertices.length * 36

/-- Reassemble a 32-bit word from four little-endian bytes. -/
def wordOfBytes (b0 b1 b2 b3 : Nat) : Nat :=
  b0 + 256 * b1 + 65536 * b2 + 16777216 * b3

/-- Modelled from the spec: interpret a byte stream as consecutive
36-byte records of nine little-endian 32-bit words (position[3],
normal[3], color[3]); a trailing fragment shorter than one record (the
padding) is ignored.  This is the unpacking direction of claim C8, which
the repository itself does not implement. -/
def bytesToVertices : List Nat → List VertexBits
  | b0 :: b1 :: b2 :: b3 :: b4 :: b5 :: b6 :: b7 :: b8 :: b9 :: b10 :: b11 ::
    b12 :: b13 :: b14 :: b15 :: b16 :: b17 :: b18 :: b19 :: b20 :: b21 :: b22 :: b23 ::
    b24 :: b25 :: b26 :: b27 :: b28 :: b29 :: b30 :: b31 :: b32 :: b33 :: b34 :: b35 ::
    rest =>
      ⟨wordOfBytes b0 b1 b2 b3, wordOfBytes b4 b5 b6 b7, wordOfBytes b8 b9 b10 b11,
       wordOfBytes b12 b13 b14 b15, wordOfBytes b16 b17 b18 b19, wordOfBytes b20 b21 b22 b23,
       wordOfBytes b24 b25 b26 b27, wordOfBytes b28 b29 b30 b31, wordOfBytes b32 b33 b34 b35⟩
      :: bytesToVertices rest
  | _ => []

/-- src/src/error.rs lines 5-11 (the enum is named VoxelifyError there;
lib.rs refers to it through the alias ExtrudeImageError). -/
inductive VoxelifyError where
  | SerializationError
  | SizeError
deriving DecidableEq, Repr

/-- gltf::binary::Header, as filled in by create_glb: 4 magic bytes,
version and length are u32 values. -/
structure GlbHeader where
  magic : List Nat
  version : Nat
  length : Nat
deriving DecidableEq, Repr

/-- gltf::binary::Glb, as filled in by create_glb: header, the padded
binary payload, and the metadata bytes. -/
structure Glb where
  header : GlbHeader
  bin : List Nat
  json : List Nat
deriving DecidableEq, Repr

/-- The bytes of the literal *b"glTF". -/
def glTF_magic : List Nat := [103, 108, 84, 70]

/-- u32::MAX, the bound of the u32::try_from conversion on line 32. -/
def u32MAX : Nat := 4294967295

/-- src/src/lib.rs lines 20-39.  json::serialize::to_string is the
serde_json crate; create_glb only consumes its outcome, which is passed
here as an Except value (the serialized byte string on success).  The ?
on the serialization maps a failure to SerializationError, the failed
u32::try_from of the total length maps to SizeError, both via the
From impls in src/src/error.rs. -/
def create_glb (serialized : Except Unit (List Nat)) (vertices : List VertexBits) :
    Except VoxelifyError Glb :=
  match serialized with
  | Except.error _ => Except.error VoxelifyError.SerializationError
  | Except.ok json_string =>
      let json_offset := align_to_multiple_of_four json_string.length
      let total := json_offset + calculate_buffer_length vertices
      if total ≤ u32MAX then
        Except.ok
          { header := { magic := glTF_magic, version := 2, length := total },
            bin := to_padded_byte_vector vertices,
            json := json_string }
      else Except.error VoxelifyError.SizeError

/-- Modelled from the spec: the canonical axis-aligned unit normal each
face's vertices must carry (Up = [0,0,1], Down = [0,0,-1],
Forward = [0,-1,0], Back = [0,1,0], Left = [-1,0,0], Right = [1,0,0]).
Comparison target for claim C10. -/
def spec_canonical_normal : Face → Vec3
  | Face.Up => ⟨0, 0, 1⟩
  | Face.Down => ⟨0, 0, -1⟩
  | Face.Forward => ⟨0, -1, 0⟩
  | Face.Back => ⟨0, 1, 0⟩
  | Face.Left => ⟨-1, 0, 0⟩
  | Face.Right => ⟨1, 0, 0⟩

/-- A fully opaque white pixel. -/
def whiteRgb : Rgb := ⟨255, 255, 255⟩

/-- A 1 by 1 image whose only pixel is opaque white. -/
def img1x1 : Image := ⟨1, 1, fun _ _ => whiteRgb⟩

/-- A 2 by 1 image with both pixels opaque white. -/
def img2x1 : Image := ⟨2, 1, fun _ _ => whiteRgb⟩

/-- A 2 by 1 image: pixel (0,0) opaque white, pixel (1,0) pure black
(classified empty). -/
def img2x1L : Image := ⟨2, 1, fun x _ => if x = 0 then whiteRgb else rgbBlack⟩

/-- Sanity check: the f32::MAX literal is (2^24 - 1) * 2^104. -/
theorem f32MAX_eq : f32MAX = (2 ^ 24 - 1) * 2 ^ 104 := by
  norm_num [f32MAX]

/-- One vertex record serializes to exactly 36 bytes. -/
theorem vertexBytes_length (v : VertexBits) : (vertexBytes v).length = 36 := by
  simp [vertexBytes, wordBytes]

/-- The unpadded payload is 36 bytes per vertex. -/
theorem flatMap_vertexBytes_length (l : List VertexBits) :
    (l.flatMap vertexBytes).length = l.length * 36 := by
  induction l with
  | nil => simp
  | cons v t ih => simp [ih, vertexBytes, wordBytes]; ring

/-- Since 36 bytes per record is already a multiple of 4, the padding
loop appends nothing. -/
theorem to_padded_byte_vector_eq (l : List VertexBits) :
    to_padded_byte_vector l = l.flatMap vertexBytes := by
  have h := flatMap_vertexBytes_length l
  have h4 : (l.flatMap vertexBytes).length % 4 = 0 := by omega
  show l.flatMap vertexBytes ++
      List.replicate ((4 - (l.flatMap vertexBytes).length % 4) % 4) 0 =
    l.flatMap vertexBytes
  rw [h4]
  simp

/-- The padded payload length equals the declared buffer length. -/
theorem to_padded_length (l : List VertexBits) :
    (to_padded_byte_vector l).length = calculate_buffer_length l := by
  rw [to_padded_byte_vector_eq, flatMap_vertexBytes_length]
  rfl

/-- Little-endian byte split and reassembly of a 32-bit word cancel. -/
theorem word_roundtrip (w : Nat) (h : w < 4294967296) :
    wordOfBytes (w % 256) (w / 256 % 256) (w / 65536 % 256) (w / 16777216 % 256) = w := by
  unfold wordOfBytes
  omega

/-- Claim C1: for a 1 by 1 fully opaque image with height 2.0 the code
emits 4 faces (24 vertices), not the 6 faces (36 vertices) the spec
scenario requires: the match arm for coordinate 0 shadows the
width - 1 / height - 1 arm, so Right and Back are dropped.  The
position bounds are still min = [0,0,0], max = [1,1,2]. -/
theorem C1_one_pixel_eval :
    (image_to_vertices img1x1 2).length = 24 ∧
    cull_faces img1x1 (0, 0) = [Face.Up, Face.Down, Face.Left, Face.Forward] ∧
    bounding_coords (image_to_vertices img1x1 2) = (⟨0, 0, 0⟩, ⟨1, 1, 2⟩) := by
  refine ⟨by decide, by decide, ?_⟩
  simp [image_to_vertices, img1x1, cull_faces, scan_is_empty, is_empty_pixel, whiteRgb,
    rgbBlack, create_pixel_verticies_face, pixel_color, List.range_succ]
  simp [bounding_coords, f32MAX, f32MIN]
  norm_num [min_def, max_def]

/-- Claim C3: for a 2 by 1 image with both pixels opaque, the shared
internal edge is culled on both sides (no Right on pixel (0,0), no Left
on pixel (1,0)), but the code emits 8 faces (48 vertices), not the 10
faces (60 vertices) of the spec scenario: with image height 1 every
pixel is on both y boundaries and the y = 0 arm shadows the
height - 1 arm, so both Back faces are dropped. -/
theorem C3_two_pixel_eval :
    cull_faces img2x1 (0, 0) = [Face.Up, Face.Down, Face.Left, Face.Forward] ∧
    cull_faces img2x1 (1, 0) = [Face.Up, Face.Down, Face.Right, Face.Forward] ∧
    (image_to_vertices img2x1 2).length = 48 := by
  decide

/-- Claim C4: on an empty vertex sequence bounding_coords returns the
unguarded sentinels min = [f32::MAX; 3], max = [f32::MIN; 3] (an
inverted bound, max below min), and create_accessors embeds exactly
these sentinels as the declared position bounds, instead of a defined
degenerate bound or a no-geometry signal. -/
theorem C4_empty_bounds_eval :
    bounding_coords [] = (⟨f32MAX, f32MAX, f32MAX⟩, ⟨f32MIN, f32MIN, f32MIN⟩) ∧
    (create_accessors_positions []).min = ⟨f32MAX, f32MAX, f32MAX⟩ ∧
    (create_accessors_positions []).max = ⟨f32MIN, f32MIN, f32MIN⟩ ∧
    f32MIN < f32MAX := by
  refine ⟨rfl, rfl, rfl, ?_⟩
  norm_num [f32MIN, f32MAX]

/-- Claim C9: the main scan of image_to_vertices and the neighbor
lookups of cull_faces classify pixels by one and the same convention:
empty exactly when the RGB value is pure black. -/
theorem C9_empty_pixel_convention :
    ∀ pixel : Rgb,
      scan_is_empty pixel = is_empty_pixel pixel ∧
      (is_empty_pixel pixel = true ↔ pixel = rgbBlack) :=
  fun pixel => ⟨rfl, by simp [is_empty_pixel]⟩

/-- Claim C10: every vertex of every emitted face carries exactly the
face's canonical axis-aligned unit normal, for all positions, colors
and heights. -/
theorem C10_face_normals :
    ∀ (pos : ℚ × ℚ) (color : Rgb) (height : ℚ) (face : Face) (v : Vertex),
      v ∈ create_pixel_verticies_face pos color height face →
      v.normal = spec_canonical_normal face := by
  intro pos color height face v hv
  cases face <;>
    · simp only [create_pixel_verticies_face, List.mem_cons, List.not_mem_nil, or_false] at hv
      rcases hv with rfl | rfl | rfl | rfl | rfl | rfl <;> rfl

/-- Witness for C10 at a concrete face vertex. -/
theorem C10_face_normals_witness :
    (⟨⟨0, 0, 2⟩, ⟨0, 0, 1⟩, pixel_color whiteRgb⟩ : Vertex).normal =
      spec_canonical_normal Face.Up :=
  C10_face_normals (0, 0) whiteRgb 2 Face.Up _ (by simp [create_pixel_verticies_face])

/-- Counterexample to claim C2 as stated: in img2x1L the pixel (0,0) is
solid, its right neighbor (1,0) lies inside the image and is classified
empty, yet cull_faces does not emit the Right face, because the
x = 0 match arm never inspects the right neighbor. -/
theorem C2_counterexample :
    0 + 1 < img2x1L.width ∧
    is_empty_pixel (img2x1L.pixel (0 + 1) 0) = true ∧
    scan_is_empty (img2x1L.pixel 0 0) = false ∧
    Face.Right ∉ cull_faces img2x1L (0, 0) := by
  decide

set_option maxHeartbeats 2000000 in
/-- Claim C2 (amended): Up and Down are always visible.  On the x axis
the arms are tried in order: at x = 0 only Left is added; otherwise at
x = width - 1 only Right is added; otherwise Right is added exactly when
the right neighbor is empty and Left exactly when the left neighbor is
empty.  Same for the y axis with Forward (y = 0) and Back
(y = height - 1).  In particular a boundary pixel never gets the
opposite-side face, even when that neighbor is inside the image and
empty, and on a 1-pixel-wide axis only the Left (resp. Forward) face is
emitted. -/
theorem C2_cull_faces_characterization :
    ∀ (image : Image) (pos : Nat × Nat),
      pos.1 < image.width → pos.2 < image.height →
      (Face.Up ∈ cull_faces image pos ∧ Face.Down ∈ cull_faces image pos) ∧
      (Face.Left ∈ cull_faces image pos ↔
        pos.1 = 0 ∨ (pos.1 ≠ 0 ∧ pos.1 ≠ image.width - 1 ∧
          is_empty_pixel (image.pixel (pos.1 - 1) pos.2) = true)) ∧
      (Face.Right ∈ cull_faces image pos ↔
        pos.1 ≠ 0 ∧ (pos.1 = image.width - 1 ∨ (pos.1 ≠ image.width - 1 ∧
          is_empty_pixel (image.pixel (pos.1 + 1) pos.2) = true))) ∧
      (Face.Forward ∈ cull_faces image pos ↔
        pos.2 = 0 ∨ (pos.2 ≠ 0 ∧ pos.2 ≠ image.height - 1 ∧
          is_empty_pixel (image.pixel pos.1 (pos.2 - 1)) = true)) ∧
      (Face.Back ∈ cull_faces image pos ↔
        pos.2 ≠ 0 ∧ (pos.2 = image.height - 1 ∨ (pos.2 ≠ image.height - 1 ∧
          is_empty_pixel (image.pixel pos.1 (pos.2 + 1)) = true))) := by
  intro image pos hx hy
  obtain ⟨x, y⟩ := pos
  simp only [cull_faces]
  refine ⟨⟨?_, ?_⟩, ?_, ?_, ?_, ?_⟩ <;> (split_ifs <;> simp_all)

/-- Witness for C2 at the 1 by 1 image. -/
theorem C2_cull_faces_characterization_witness :
    Face.Up ∈ cull_faces img1x1 (0, 0) :=
  (C2_cull_faces_characterization img1x1 (0, 0) (by decide) (by decide)).1.1

/-- Counterexample to claim C5 as stated: for metadata bytes of length 2
and no vertices the header length field is 4 (the padded metadata
length), not padded metadata + padded payload + the 12-byte header
size, which would be 16. -/
theorem C5_counterexample :
    create_glb (Except.ok [103, 108]) ([] : List VertexBits) =
      Except.ok
        { header := { magic := glTF_magic, version := 2, length := 4 },
          bin := [], json := [103, 108] } ∧
    (4 : Nat) ≠
      align_to_multiple_of_four 2 +
        (to_padded_byte_vector ([] : List VertexBits)).length + 12 :=
  ⟨rfl, by decide⟩

/-- Claim C5 (amended): whenever the computed total fits in u32, the
assembled container's header carries the fixed magic glTF, version 2,
and a length field equal to the padded-metadata length plus the padded
payload length; the fixed 12-byte header size is not included. -/
theorem C5_header_contents :
    ∀ (json_string : List Nat) (vertices : List VertexBits),
      align_to_multiple_of_four json_string.length + calculate_buffer_length vertices ≤ u32MAX →
      create_glb (Except.ok json_string) vertices =
        Except.ok
          { header :=
              { magic := glTF_magic, version := 2,
                length := align_to_multiple_of_four json_string.length +
                  (to_padded_byte_vector vertices).length },
            bin := to_padded_byte_vector vertices,
            json := json_string } := by
  intro json_string vertices h
  simp [create_glb, h, to_padded_length]

/-- Witness for C5 at concrete metadata and an empty vertex list. -/
theorem C5_header_contents_witness :
    create_glb (Except.ok [103, 108]) ([] : List VertexBits) =
      Except.ok
        { header :=
            { magic := glTF_magic, version := 2,
              length := align_to_multiple_of_four 2 +
                (to_padded_byte_vector ([] : List VertexBits)).length },
          bin := to_padded_byte_vector [], json := [103, 108] } :=
  C5_header_contents [103, 108] [] (by decide)

/-- Claim C6: create_glb fails with SizeError exactly when serialization
succeeded and the computed total length exceeds u32::MAX, and with the
distinct SerializationError exactly when the metadata could not be
serialized; in both cases the result is an error value, so no partial
container is produced. -/
theorem C6_error_classification :
    ∀ (serialized : Except Unit (List Nat)) (vertices : List VertexBits),
      (create_glb serialized vertices = Except.error VoxelifyError.SizeError ↔
        ∃ json_string, serialized = Except.ok json_string ∧
          u32MAX < align_to_multiple_of_four json_string.length +
            calculate_buffer_length vertices) ∧
      (create_glb serialized vertices = Except.error VoxelifyError.SerializationError ↔
        serialized = Except.error ()) ∧
      VoxelifyError.SizeError ≠ VoxelifyError.SerializationError := by
  intro serialized vertices
  refine ⟨?_, ?_, by decide⟩ <;>
    cases serialized with
    | error e => cases e; simp [create_glb]
    | ok json_string =>
        simp only [create_glb]
        split_ifs with h <;> simp_all

/-- Claim C7: the packed payload is exactly 36 bytes per vertex before
padding, and the padded payload length is always a multiple of 4. -/
theorem C7_payload_length :
    ∀ vertices : List VertexBits,
      (vertices.flatMap vertexBytes).length = vertices.length * 36 ∧
      (to_padded_byte_vector vertices).length % 4 = 0 := by
  intro vertices
  refine ⟨flatMap_vertexBytes_length vertices, ?_⟩
  rw [to_padded_length]
  simp [calculate_buffer_length]
  omega

/-- Unpacking the unpadded payload reproduces the vertex list. -/
theorem unpack_flatMap :
    ∀ l : List VertexBits, (∀ v ∈ l, v.wf) →
      bytesToVertices (l.flatMap vertexBytes) = l := by
  intro l
  induction l with
  | nil => intro _; rfl
  | cons v t ih =>
      intro h
      obtain ⟨h0, h1, h2, h3, h4, h5, h6, h7, h8⟩ := h v (List.mem_cons_self v t)
      simp only [List.flatMap_cons, vertexBytes, wordBytes, List.cons_append,
        List.nil_append, List.append_assoc]
      simp only [bytesToVertices]
      rw [word_roundtrip _ h0, word_roundtrip _ h1, word_roundtrip _ h2,
        word_roundtrip _ h3, word_roundtrip _ h4, word_roundtrip _ h5,
        word_roundtrip _ h6, word_roundtrip _ h7, word_roundtrip _ h8,
        ih (fun w hw => h w (List.mem_cons_of_mem v hw))]

/-- Claim C8: packing a vertex sequence to padded bytes and unpacking
(nine little-endian 32-bit words per 36-byte record, trailing padding
ignored) reproduces the original vertex attributes exactly. -/
theorem C8_pack_unpack_roundtrip :
    ∀ vertices : List VertexBits, (∀ v ∈ vertices, v.wf) →
      bytesToVertices (to_padded_byte_vector vertices) = vertices := by
  intro vertices h
  rw [to_padded_byte_vector_eq]
  exact unpack_flatMap vertices h

/-- Witness for C8 at a concrete one-vertex list. -/
theorem C8_pack_unpack_roundtrip_witness :
    bytesToVertices (to_padded_byte_vector [⟨1, 2, 3, 4, 5, 6, 7, 8, 9⟩]) =
      [⟨1, 2, 3, 4, 5, 6, 7, 8, 9⟩] :=
  C8_pack_unpack_roundtrip [⟨1, 2, 3, 4, 5, 6, 7, 8, 9⟩] (by decide)

end Voxelify
